import Mathlib

/-!
Shallow embedding of the Bitaxe hashrate benchmark orchestration core
(src/benchmark/core.py, with data types from src/models.py and
configuration from src/config.py), together with theorems checking the
natural-language specification against it.

Conventions:
* Python ints are modelled as Int, Python floats as ℚ (the float value
  +infinity is modelled by Option with none); Real.sqrt is used where the
  code takes a square root.
* Fallible computations (uncaught Python exceptions such as
  ZeroDivisionError) are modelled with Option: none means the exception
  escapes.
* The asynchronous device is modelled by a finite script of trial
  outcomes consumed by the sweep loop; an exhausted script ends the model
  run (the run function returns none in that case).
-/

namespace BitaxeBench

/-- Benchmark lifecycle states (models.py, class BenchmarkState). -/
inductive BenchmarkState where
  | IDLE
  | INITIALIZING
  | STABILIZING
  | RUNNING
  | PAUSED
  | STOPPING
  | COMPLETED
  | ERROR
  deriving DecidableEq, Repr

/-- Closed set of iteration failure codes (the error_reason string literals
assigned in core.py, _run_iteration). -/
inductive ErrorReason where
  | SYSTEM_INFO_FAILURE
  | TEMPERATURE_DATA_FAILURE
  | TEMPERATURE_BELOW_5
  | CHIP_TEMP_EXCEEDED
  | VR_TEMP_EXCEEDED
  | INPUT_VOLTAGE_BELOW_MIN
  | INPUT_VOLTAGE_ABOVE_MAX
  | HASHRATE_POWER_DATA_FAILURE
  | POWER_CONSUMPTION_EXCEEDED
  | NO_DATA_COLLECTED
  | ZERO_HASHRATE
  deriving DecidableEq, Repr

/-- Safety limits (config.py, class SafetyConfig). -/
structure SafetyConfig where
  max_temp : Int
  max_vr_temp : Int
  max_power : Int
  max_allowed_voltage : Int
  min_allowed_voltage : Int
  max_allowed_frequency : Int
  min_allowed_frequency : Int
  min_input_voltage : Int
  max_input_voltage : Int
  deriving DecidableEq, Repr

/-- Timing parameters (config.py, class TimingConfig). -/
structure TimingConfig where
  sleep_time : Int
  benchmark_time : Int
  sample_interval : Int
  deriving DecidableEq, Repr

/-- Step sizes (config.py, class IncrementsConfig). -/
structure IncrementsConfig where
  voltage_increment : Int
  frequency_increment : Int
  deriving DecidableEq, Repr

/-- Analysis parameters (config.py, class AnalysisConfig). -/
structure AnalysisConfig where
  hashrate_tolerance : ℚ
  trim_outliers : ℕ
  warmup_samples : ℕ
  min_samples : ℕ
  deriving DecidableEq, Repr

/-- Complete configuration (config.py, class BenchmarkConfig). -/
structure BenchmarkConfig where
  timing : TimingConfig
  safety : SafetyConfig
  increments : IncrementsConfig
  analysis : AnalysisConfig
  deriving DecidableEq, Repr

/-- Static device capabilities (models.py, class DeviceInfo; only the
fields the core reads). -/
structure DeviceInfo where
  small_core_count : ℕ
  asic_count : ℕ
  default_voltage : Int
  default_frequency : Int
  deriving DecidableEq, Repr

/-- Summarized outcome of one (voltage, frequency) trial (models.py,
class IterationResult).  The code stores the sample standard deviation of
the trimmed hashrates; since that is an irrational square root, the model
keeps its square (the sample variance) in the field hashrate_stddev_sq —
no claim depends on this field.  efficiency_jth = none models the float
value +infinity. -/
structure IterationResult where
  core_voltage : Int
  frequency : Int
  average_hashrate : ℚ
  hashrate_stddev_sq : ℚ
  average_temperature : ℚ
  average_vr_temperature : Option ℚ
  average_power : ℚ
  average_fan_speed : Option ℚ
  efficiency_jth : Option ℚ
  hashrate_within_tolerance : Bool
  error_reason : Option ErrorReason
  deriving DecidableEq, Repr

/-- Refinement window after a quick sweep (models.py, class RefineRange). -/
structure RefineRange where
  voltage_min : Int
  voltage_max : Int
  frequency_min : Int
  frequency_max : Int
  deriving DecidableEq, Repr

/-- Saved state for pause/resume (core.py, class BenchmarkState_); the
bitaxe_ip string and the start_time wall-clock stamp carry no logic and
are omitted. -/
structure SavedState where
  current_voltage : Int
  current_frequency : Int
  initial_voltage : Int
  initial_frequency : Int
  iteration_num : ℕ
  retry_upon_overheat : ℕ
  deriving DecidableEq, Repr

/-! ## Python helpers -/

/-- Python truthiness for an optional int argument used as (x or d):
None and 0 are falsy and fall back to the default d. -/
def pyOrInt (x : Option Int) (d : Int) : Int :=
  match x with
  | some v => if v ≠ 0 then v else d
  | none => d

/-- Python slice l[t:-t] as written in core.py line 440. Note that for
t = 0 the stop index -0 is 0, so the slice is empty regardless of l. -/
def pyTrimSlice (l : List ℚ) (t : ℕ) : List ℚ :=
  let stop : ℕ := if t = 0 then 0 else l.length - t
  (l.take stop).drop t

/-- Python sum(l) / len(l): none models the ZeroDivisionError raised on an
empty list. -/
def pyAvg (l : List ℚ) : Option ℚ :=
  if l.isEmpty then none else some (l.sum / l.length)

/-- Arithmetic mean for lists that are provably non-empty at their call
sites (Python would raise on an empty list; these call sites never pass
one, see the lemmas below). -/
def avgTotal (l : List ℚ) : ℚ :=
  l.sum / l.length

/-- Python range(a, b, step) length, for the positive step sizes the
sweep uses (the number of k ≥ 0 with a + k * step < b). -/
def pyRangeLen (a b step : Int) : ℕ :=
  if 0 < step ∧ a < b then ((b - a).toNat + step.toNat - 1) / step.toNat else 0

/-- Python list(range(a, b, step)) for positive step. -/
def pyRange (a b step : Int) : List Int :=
  (List.range (pyRangeLen a b step)).map (fun (k : ℕ) => a + (k : Int) * step)

/-- Python max(l, key = f) for non-empty l: the first element with the
maximal key (later elements replace the current best only on a strictly
greater key). -/
def pyMaxBy (f : IterationResult → ℚ) (l : List IterationResult) : Option IterationResult :=
  match l with
  | [] => none
  | x :: xs => some (xs.foldl (fun best y => if f y > f best then y else best) x)

/-- Python sorted(l) for ascending numeric sort, modelled by insertion
sort (for numbers this equals the stable sort Python performs). -/
def pySorted (l : List ℚ) : List ℚ :=
  l.insertionSort (· ≤ ·)

/-! ## Aggregator: statistics of one iteration -/

/-- Sample variance of a list, the square of statistics.stdev
(see the comment on IterationResult.hashrate_stddev_sq). -/
def sampleVariance (l : List ℚ) : ℚ :=
  let n : ℚ := l.length
  let mean := l.sum / n
  (l.map (fun x => (x - mean) ^ 2)).sum / (n - 1)

/-- Expected hashrate of a trial (core.py line 256):
frequency * ((small_core_count * asic_count) / 1000). -/
def expectedHashrate (dev : DeviceInfo) (frequency : Int) : ℚ :=
  (frequency : ℚ) * ((dev.small_core_count * dev.asic_count : ℚ) / 1000)

/-- Result aggregation at the end of one sampling iteration
(core.py lines 423-488 of _run_iteration, together with the
expected-hashrate computation of line 256).  The result is none when the
Python code would let a ZeroDivisionError escape (this can happen on the
trimmed-hashrate average, see pyTrimSlice); the averages of the
temperature, power and fan lists are over lists that are non-empty on
every reachable path, so avgTotal is exact for them. -/
def aggregate (cfg : AnalysisConfig) (dev : DeviceInfo) (voltage frequency : Int)
    (hash_rates temperatures power_consumptions vr_temps fan_speeds : List ℚ) :
    Option IterationResult :=
  if hash_rates = [] ∨ temperatures = [] ∨ power_consumptions = [] then
    some { core_voltage := voltage, frequency := frequency
           average_hashrate := 0, hashrate_stddev_sq := 0
           average_temperature := 0, average_vr_temperature := none
           average_power := 0, average_fan_speed := none
           efficiency_jth := none
           hashrate_within_tolerance := false
           error_reason := some .NO_DATA_COLLECTED }
  else
    let trim := cfg.trim_outliers
    let sorted_hashrates := pySorted hash_rates
    let trimmed_hashrates :=
      if sorted_hashrates.length > trim * 2 then pyTrimSlice sorted_hashrates trim
      else sorted_hashrates
    match pyAvg trimmed_hashrates with
    | none => none
    | some average_hashrate =>
      let hashrate_stddev_sq :=
        if trimmed_hashrates.length > 1 then sampleVariance trimmed_hashrates else 0
      let warmup := cfg.warmup_samples
      let sorted_temps := pySorted temperatures
      let trimmed_temps :=
        if sorted_temps.length > warmup then sorted_temps.drop warmup else sorted_temps
      let average_temperature := avgTotal trimmed_temps
      let average_vr_temp : Option ℚ :=
        if vr_temps ≠ [] then
          let sorted_vr := pySorted vr_temps
          some (avgTotal (if sorted_vr.length > warmup then sorted_vr.drop warmup else sorted_vr))
        else none
      let average_power := avgTotal power_consumptions
      let average_fan_speed : Option ℚ :=
        if fan_speeds ≠ [] then some (avgTotal fan_speeds) else none
      if 0 < average_hashrate then
        some { core_voltage := voltage, frequency := frequency
               average_hashrate := average_hashrate
               hashrate_stddev_sq := hashrate_stddev_sq
               average_temperature := average_temperature
               average_vr_temperature := average_vr_temp
               average_power := average_power
               average_fan_speed := average_fan_speed
               efficiency_jth := some (average_power / (average_hashrate / 1000))
               hashrate_within_tolerance :=
                 decide (average_hashrate ≥ expectedHashrate dev frequency * cfg.hashrate_tolerance)
               error_reason := none }
      else
        some { core_voltage := voltage, frequency := frequency
               average_hashrate := 0, hashrate_stddev_sq := 0
               average_temperature := average_temperature
               average_vr_temperature := none
               average_power := average_power
               average_fan_speed := none
               efficiency_jth := none
               hashrate_within_tolerance := false
               error_reason := some .ZERO_HASHRATE }

/-! ## Running standard deviation (core.py lines 167-172, _running_stddev) -/

/-- Running standard deviation from the two running sums s1 = Σx and
s2 = Σx² over n samples: the code computes
max((n * s2 - s1 ** 2) / (n * (n - 1)), 0.0) ** 0.5 for n > 1 and 0.0
otherwise. -/
noncomputable def running_stddev (n : ℕ) (s1 s2 : ℝ) : ℝ :=
  if 1 < n then
    Real.sqrt (max (((n : ℝ) * s2 - s1 ^ 2) / ((n : ℝ) * ((n : ℝ) - 1))) 0)
  else 0

/-! ## Control flags: stop / pause / resume protocol -/

/-- The mutable control fields of BenchmarkRunner that the stop / pause /
resume protocol reads and writes (core.py lines 60-74): the two request
flags, whether the asyncio resume event is set, and the lifecycle state. -/
structure CtrlState where
  stop_requested : Bool
  pause_requested : Bool
  resume_event : Bool
  state : BenchmarkState
  deriving DecidableEq, Repr

/-- request_stop (core.py lines 100-105): set the stop flag, clear the
pause flag, set the resume event (unblocking a parked checkpoint). -/
def requestStop (s : CtrlState) : CtrlState :=
  { s with stop_requested := true, pause_requested := false, resume_event := true }

/-- request_pause (core.py lines 107-111): only honoured in RUNNING or
STABILIZING. -/
def requestPause (s : CtrlState) : CtrlState :=
  if s.state = .RUNNING ∨ s.state = .STABILIZING then
    { s with pause_requested := true }
  else s

/-- resume (core.py lines 113-118): only honoured in PAUSED. -/
def resumeRunner (s : CtrlState) : CtrlState :=
  if s.state = .PAUSED then
    { s with pause_requested := false, resume_event := true }
  else s

/-- The gate-entry condition of _check_pause (core.py line 496): the
checkpoint parks if and only if pause is requested and stop is not. -/
def checkPauseParks (s : CtrlState) : Bool :=
  s.pause_requested && !s.stop_requested

/-- The value _check_pause returns after a parked checkpoint wakes up,
as a function of the flag state at wake-up (core.py lines 501-510):
False exactly when stop was requested, making the sweep loops break
instead of starting another trial. -/
def checkPauseReturn (wake : CtrlState) : Bool :=
  !wake.stop_requested

/-- The can_resume property (core.py lines 95-98): a snapshot is present
AND the state is PAUSED. -/
def canResume (saved_state : Option SavedState) (state : BenchmarkState) : Bool :=
  saved_state.isSome && decide (state = BenchmarkState.PAUSED)

/-! ## Sweep controller (core.py lines 512-759, BenchmarkRunner.run)

The device and its telemetry are abstracted by a finite script of trial
outcomes: each executed trial (one _apply_settings call followed, on
success, by one _run_iteration call) consumes exactly one script entry.
The sweep is embedded for an uninterrupted environment — no request_stop
or request_pause call arrives during the run, so the stop flag stays
false at the loop conditions of lines 628 and 637 and every _check_pause
checkpoint (lines 632 and 639) is a no-op; the flag protocol itself is
modelled separately by requestStop / checkPauseParks / checkPauseReturn
above.  An unexpected Python exception escaping a trial is the script
entry raiseExc, which unwinds to the top-level except handler of
line 753. -/

/-- The _run_iteration result data of one scripted trial, minus the
voltage / frequency echo fields that the loop fills in. -/
structure IterOutcome where
  average_hashrate : ℚ
  hashrate_stddev_sq : ℚ
  average_temperature : ℚ
  average_vr_temperature : Option ℚ
  average_power : ℚ
  average_fan_speed : Option ℚ
  efficiency_jth : Option ℚ
  hashrate_within_tolerance : Bool
  error_reason : Option ErrorReason
  deriving DecidableEq, Repr

/-- Fill in the trial's voltage and frequency to obtain the
IterationResult returned by _run_iteration. -/
def IterOutcome.toResult (o : IterOutcome) (voltage frequency : Int) : IterationResult :=
  { core_voltage := voltage, frequency := frequency
    average_hashrate := o.average_hashrate
    hashrate_stddev_sq := o.hashrate_stddev_sq
    average_temperature := o.average_temperature
    average_vr_temperature := o.average_vr_temperature
    average_power := o.average_power
    average_fan_speed := o.average_fan_speed
    efficiency_jth := o.efficiency_jth
    hashrate_within_tolerance := o.hashrate_within_tolerance
    error_reason := o.error_reason }

/-- Scripted outcome of one trial attempt. -/
inductive TrialOutcome where
  | stabFail
  | raiseExc
  | iter (o : IterOutcome)
  deriving DecidableEq, Repr

/-- Observable device writes: the _apply_settings calls the run makes,
with their wait_for_stabilization argument (true for trials inside the
sweep, false for the final best-or-default application). -/
inductive Action where
  | applySettings (voltage frequency : Int) (wait_for_stabilization : Bool)
  deriving DecidableEq, Repr

/-- State threaded through the sweep loops: device-write trace, collected
results (only error-free ones are appended, line 669), the iteration
counter and the resume snapshot (kept up to date at lines 643-645). -/
structure SweepSt where
  trace : List Action
  results : List IterationResult
  iteration_num : ℕ
  saved : SavedState
  deriving DecidableEq, Repr

/-- How one voltage level's inner frequency loop ended. -/
inductive InnerExit where
  | freqLimit
  | broke
  | abortAll
  | raised
  | scriptEnd
  deriving DecidableEq, Repr

/-- Inner frequency loop for one voltage level (core.py lines 637-700):
while freq ≤ sweep_max_f, apply the pair and run one iteration; on an
error-free within-tolerance result advance the frequency by f_inc and
continue; on an error-free out-of-tolerance result stop this voltage; on
CHIP_TEMP_EXCEEDED at the initial frequency abort the whole sweep; on any
other failed iteration or a stabilization failure stop this voltage. -/
def innerLoop (sweep_max_f f_inc initial_freq voltage : Int) :
    List TrialOutcome → Int → SweepSt → SweepSt × List TrialOutcome × InnerExit
  | [], freq, st =>
    if freq ≤ sweep_max_f then (st, [], .scriptEnd) else (st, [], .freqLimit)
  | o :: rest, freq, st =>
    if freq ≤ sweep_max_f then
      let st := { st with
        saved := { st.saved with
          current_voltage := voltage, current_frequency := freq
          iteration_num := st.iteration_num }
        trace := st.trace ++ [Action.applySettings voltage freq true] }
      match o with
      | .stabFail => (st, rest, .broke)
      | .raiseExc => (st, rest, .raised)
      | .iter r =>
        let st := { st with iteration_num := st.iteration_num + 1 }
        let result := r.toResult voltage freq
        if result.error_reason = none then
          let st := { st with results := st.results ++ [result] }
          if result.hashrate_within_tolerance then
            innerLoop sweep_max_f f_inc initial_freq voltage rest (freq + f_inc) st
          else (st, rest, .broke)
        else
          if result.error_reason = some .CHIP_TEMP_EXCEEDED ∧ freq = initial_freq then
            (st, rest, .abortAll)
          else (st, rest, .broke)
    else (st, o :: rest, .freqLimit)

/-- How the whole two-level sweep ended. -/
inductive OuterExit where
  | done
  | aborted
  | raised
  | scriptEnd
  deriving DecidableEq, Repr

/-- Outer voltage loop (core.py lines 627-703): run the inner loop for
each ladder voltage in order, starting each at the initial frequency;
an abort_all or an escaping exception ends the ladder immediately. -/
def outerLoop (sweep_max_f f_inc initial_freq : Int) :
    List Int → List TrialOutcome → SweepSt → SweepSt × List TrialOutcome × OuterExit
  | [], script, st => (st, script, .done)
  | voltage :: rest, script, st =>
    match innerLoop sweep_max_f f_inc initial_freq voltage script initial_freq st with
    | (st, script, .abortAll) => (st, script, .aborted)
    | (st, script, .raised) => (st, script, .raised)
    | (st, script, .scriptEnd) => (st, script, .scriptEnd)
    | (st, script, _) => outerLoop sweep_max_f f_inc initial_freq rest script st

/-- Effective step size (core.py lines 584-585): the configured increment
times 4 in quick mode, times 1 in full mode. -/
def effectiveIncrement (inc : Int) (quick : Bool) : Int :=
  inc * (if quick then 4 else 1)

/-- Sweep ceiling (core.py lines 588-595): the caller-supplied limit (with
Python or-falsiness) clamped by the global allowed maximum. -/
def sweepMax (callerLimit : Option Int) (allowedMax : Int) : Int :=
  min (pyOrInt callerLimit allowedMax) allowedMax

/-- Voltage ladder (core.py lines 598-600): range(initial_volt,
sweep_max_v + 1, v_inc), or the one-element list [initial_volt] when that
range is empty. -/
def voltageLevels (initial_volt sweep_max_v v_inc : Int) : List Int :=
  let levels := pyRange initial_volt (sweep_max_v + 1) v_inc
  if levels = [] then [initial_volt] else levels

/-- Refine range for quick mode (core.py lines 705-714): defined exactly
when the mode was quick and at least one successful result exists; it
brackets the best-by-hashrate result by one effective step in each
direction, clamped to the global safety bounds. -/
def computeRefineRange (safety : SafetyConfig) (v_inc f_inc : Int) (quick : Bool)
    (results : List IterationResult) : Option RefineRange :=
  if quick ∧ results ≠ [] then
    match pyMaxBy (fun r => r.average_hashrate) results with
    | some best =>
      some { voltage_min := max (best.core_voltage - v_inc) safety.min_allowed_voltage
             voltage_max := min (best.core_voltage + v_inc) safety.max_allowed_voltage
             frequency_min := max (best.frequency - f_inc) safety.min_allowed_frequency
             frequency_max := min (best.frequency + f_inc) safety.max_allowed_frequency }
    | none => none
  else none

/-- The in-place temperature override at the top of run (core.py lines
542-543): a truthy (non-zero) max_temp_override overwrites
config.safety.max_temp for good; nothing else in the configuration is
touched, and nothing restores the old value afterwards. -/
def overrideConfig (cfg : BenchmarkConfig) (max_temp_override : Option Int) : BenchmarkConfig :=
  match max_temp_override with
  | some t => if t ≠ 0 then { cfg with safety.max_temp := t } else cfg
  | none => cfg

/-- Everything observable when run returns (the final configuration, the
final mutable runner fields, the device-write trace and the completion
data the claims examine). raised records whether the top-level except
handler of line 753 was taken. -/
structure RunResult where
  config : BenchmarkConfig
  results : List IterationResult
  saved_state : Option SavedState
  state : BenchmarkState
  trace : List Action
  applied_settings : Option (Int × Int)
  refine_range : Option RefineRange
  raised : Bool
  deriving DecidableEq, Repr

/-- BenchmarkRunner.run (core.py lines 512-759) for an uninterrupted
environment.  Arguments: the configuration, the snapshot left over from
any previous run (run does not clear _saved_state on entry), the device
info fetch result (none models a ConnectionError at line 554), the
optional starting values and sweep limits, the temperature override, the
mode, and the trial script.  Returns none only when the script is
exhausted before the sweep ends (the model stops where the environment's
script stops); every other path returns the observable outcome. -/
def run (cfg : BenchmarkConfig) (pre_saved : Option SavedState)
    (dev : Option DeviceInfo)
    (initial_voltage initial_frequency : Option Int)
    (max_temp_override : Option Int) (quick : Bool)
    (max_voltage max_frequency : Option Int)
    (script : List TrialOutcome) : Option RunResult :=
  let cfg := overrideConfig cfg max_temp_override
  match dev with
  | none =>
    -- ConnectionError while fetching device info: ERROR state, empty
    -- results, no device writes (lines 552-560).
    some { config := cfg, results := [], saved_state := pre_saved
           state := .ERROR, trace := [], applied_settings := none
           refine_range := none, raised := false }
  | some dev =>
    let initial_volt := pyOrInt initial_voltage dev.default_voltage
    let initial_freq := pyOrInt initial_frequency dev.default_frequency
    if initial_volt < cfg.safety.min_allowed_voltage ∨
        initial_volt > cfg.safety.max_allowed_voltage ∨
        initial_freq < cfg.safety.min_allowed_frequency ∨
        initial_freq > cfg.safety.max_allowed_frequency then
      -- ValueError (lines 573-580) caught by the except handler of
      -- line 753: ERROR state, the snapshot is whatever it was before.
      some { config := cfg, results := [], saved_state := pre_saved
             state := .ERROR, trace := [], applied_settings := none
             refine_range := none, raised := true }
    else
      let v_inc := effectiveIncrement cfg.increments.voltage_increment quick
      let f_inc := effectiveIncrement cfg.increments.frequency_increment quick
      let sweep_max_v := sweepMax max_voltage cfg.safety.max_allowed_voltage
      let sweep_max_f := sweepMax max_frequency cfg.safety.max_allowed_frequency
      let levels := voltageLevels initial_volt sweep_max_v v_inc
      let saved0 : SavedState :=
        { current_voltage := initial_volt, current_frequency := initial_freq
          initial_voltage := initial_volt, initial_frequency := initial_freq
          iteration_num := 0, retry_upon_overheat := 0 }
      let st0 : SweepSt := { trace := [], results := [], iteration_num := 0, saved := saved0 }
      match outerLoop sweep_max_f f_inc initial_freq levels script st0 with
      | (_, _, .scriptEnd) => none
      | (st, _, .raised) =>
        -- Unexpected exception: the except handler (lines 753-759)
        -- reports ERROR and returns the collected results.  It performs
        -- no settings application and does not clear the snapshot.
        some { config := cfg, results := st.results
               saved_state := some st.saved, state := .ERROR
               trace := st.trace, applied_settings := none
               refine_range := none, raised := true }
      | (st, _, _) =>
        let refine := computeRefineRange cfg.safety v_inc f_inc quick st.results
        match pyMaxBy (fun r => r.average_hashrate) st.results with
        | some best =>
          -- Apply best-by-hashrate settings (lines 717-722).
          some { config := cfg, results := st.results
                 saved_state := none, state := .COMPLETED
                 trace := st.trace ++
                   [Action.applySettings best.core_voltage best.frequency false]
                 applied_settings := some (best.core_voltage, best.frequency)
                 refine_range := refine, raised := false }
        | none =>
          -- No results: restore device defaults (lines 723-730).
          some { config := cfg, results := st.results
                 saved_state := none, state := .COMPLETED
                 trace := st.trace ++
                   [Action.applySettings dev.default_voltage dev.default_frequency false]
                 applied_settings := none
                 refine_range := refine, raised := false }

/-! ## Concrete fixtures shared by witnesses and demonstrations -/

/-- The default configuration shipped in config.py. -/
def cfgD : BenchmarkConfig :=
  { timing := { sleep_time := 90, benchmark_time := 600, sample_interval := 15 }
    safety := { max_temp := 66, max_vr_temp := 86, max_power := 30
                max_allowed_voltage := 1400, min_allowed_voltage := 1000
                max_allowed_frequency := 1200, min_allowed_frequency := 400
                min_input_voltage := 4800, max_input_voltage := 5500 }
    increments := { voltage_increment := 15, frequency_increment := 20 }
    analysis := { hashrate_tolerance := 94/100, trim_outliers := 3
                  warmup_samples := 6, min_samples := 7 } }

/-- A device with a core-count product of 100 and defaults 1150mV / 500MHz. -/
def devD : DeviceInfo :=
  { small_core_count := 100, asic_count := 1
    default_voltage := 1150, default_frequency := 500 }

/-- A successful, within-tolerance iteration outcome. -/
def goodIter : IterOutcome :=
  { average_hashrate := 60, hashrate_stddev_sq := 0, average_temperature := 50
    average_vr_temperature := none, average_power := 10, average_fan_speed := none
    efficiency_jth := some 1, hashrate_within_tolerance := true, error_reason := none }

/-- An iteration outcome that failed with CHIP_TEMP_EXCEEDED. -/
def chipTempIter : IterOutcome :=
  { average_hashrate := 0, hashrate_stddev_sq := 0, average_temperature := 70
    average_vr_temperature := none, average_power := 10, average_fan_speed := none
    efficiency_jth := none, hashrate_within_tolerance := false
    error_reason := some .CHIP_TEMP_EXCEEDED }

/-- A concrete resume snapshot. -/
def savedD : SavedState :=
  { current_voltage := 1150, current_frequency := 520
    initial_voltage := 1150, initial_frequency := 500
    iteration_num := 1, retry_upon_overheat := 0 }

/-- An empty sweep-loop state. -/
def stD : SweepSt :=
  { trace := [], results := [], iteration_num := 0
    saved := { current_voltage := 1150, current_frequency := 500
               initial_voltage := 1150, initial_frequency := 500
               iteration_num := 0, retry_upon_overheat := 0 } }

/-! ## Claim theorems -/

/-- C1: the claim says a final settings application (best-by-hashrate if
any error-free result was collected, device defaults otherwise) happens
on every exit path of BenchmarkRunner.run, the unexpected-exception path
included.  The code's top-level except handler (core.py lines 753-759)
performs no settings application at all: this run collects one
successful result at (1150mV, 500MHz), then the second trial raises; the
run ends raised = true with no wait_for_stabilization = false apply in
its device-write trace and applied_settings = none — the device is left
at the untested candidate (1150mV, 520MHz), exactly what the
specification forbids (the legacy single-file implementation applied
best-or-default in its except and finally blocks). -/
theorem C1_exception_skips_final_apply :
    (run cfgD none (some devD) none none none false (some 1160) (some 520)
        [TrialOutcome.iter goodIter, TrialOutcome.raiseExc]).map
      (fun res => (res.raised, res.results.length, res.applied_settings,
        res.trace.filter (fun a => match a with | .applySettings _ _ w => !w))) =
    some (true, 1, none, []) := by decide

/-- C3: the claim says that whenever n > 2t the trimmed hashrate average
is the mean of the n - 2t middle values and the computation never
averages an empty list.  For t = 0 the code's slice
sorted_hashrates[0:-0] (core.py line 440) is empty although the guard
n > 2t holds, so sum/len raises ZeroDivisionError: with trim_outliers = 0
and the single accepted sample 5, aggregation crashes (none) instead of
returning the mean 5 of all n = 1 > 2·0 values. -/
theorem C3_trim_zero_crashes :
    aggregate { hashrate_tolerance := 94/100, trim_outliers := 0
                warmup_samples := 6, min_samples := 7 }
      devD 1150 500 [5] [50] [10] [] [] = none := by decide

/-- C5 counterexample: the claim says can_resume holds if and only if the
snapshot is present.  During a running sweep the snapshot is present
(core.py line 615 sets it at sweep start) while the state is RUNNING, and
can_resume (line 98) also requires state == PAUSED, so it is false. -/
theorem C5_presence_not_can_resume :
    ¬ (canResume (some savedD) BenchmarkState.RUNNING = true ↔
        (some savedD : Option SavedState).isSome = true) := by decide

/-- C8: for every n ≥ 1 the running standard deviation is non-negative;
it is 0 for n = 1 and equals sqrt(max(0, (n·Σx² − (Σx)²)/(n·(n−1))))
for n > 1 (core.py lines 167-172). -/
theorem C8_running_stddev_spec (n : ℕ) (s1 s2 : ℝ) (h : 1 ≤ n) :
    0 ≤ running_stddev n s1 s2 ∧
    (n = 1 → running_stddev n s1 s2 = 0) ∧
    (1 < n → running_stddev n s1 s2 =
      Real.sqrt (max 0 (((n : ℝ) * s2 - s1 ^ 2) / ((n : ℝ) * ((n : ℝ) - 1))))) := by
  refine ⟨?_, ?_, ?_⟩
  · unfold running_stddev
    split
    · exact Real.sqrt_nonneg _
    · exact le_refl 0
  · intro h1
    simp [running_stddev, h1]
  · intro h1
    simp only [running_stddev, if_pos h1]
    rw [max_comm]

/-- Witness for C8 at n = 1. -/
theorem C8_running_stddev_spec_witness : running_stddev 1 0 0 = 0 :=
  (C8_running_stddev_spec 1 0 0 (by norm_num)).2.1 rfl

/-- C4: for a completed iteration with accepted samples (error_reason
none), the tolerance flag is true exactly when the trimmed average
hashrate is at least frequency × (small_core_count × asic_count) / 1000
times the configured tolerance fraction — equality counts as true
(core.py lines 255-256 and 474). -/
theorem C4_tolerance_iff (cfg : AnalysisConfig) (dev : DeviceInfo) (v f : Int)
    (hs ts ps vrs fs : List ℚ) (r : IterationResult)
    (h : aggregate cfg dev v f hs ts ps vrs fs = some r)
    (herr : r.error_reason = none) :
    (r.hashrate_within_tolerance = true ↔
      r.average_hashrate ≥
        (f : ℚ) * ((dev.small_core_count * dev.asic_count : ℚ) / 1000) * cfg.hashrate_tolerance) := by
  simp only [aggregate] at h
  split at h
  · simp only [Option.some.injEq] at h
    subst h
    simp at herr
  · split at h
    · exact Option.noConfusion h
    · split at h
      · simp only [Option.some.injEq] at h
        subst h
        simp [expectedHashrate, decide_eq_true_iff, ge_iff_le]
      · simp only [Option.some.injEq] at h
        subst h
        simp at herr

/-- The aggregated result of three samples of exactly 47 GH/s at 500MHz
on a 100-core device with the default analysis settings: the expected
hashrate is 50 and the tolerance threshold 50 × 0.94 = 47, so the trial
sits exactly on the tolerance boundary. -/
def rBoundary : IterationResult :=
  { core_voltage := 1150, frequency := 500
    average_hashrate := 47, hashrate_stddev_sq := 0
    average_temperature := 50, average_vr_temperature := none
    average_power := 10, average_fan_speed := none
    efficiency_jth := some (10000/47)
    hashrate_within_tolerance := true, error_reason := none }

/-- Witness for C4 at the exact-equality boundary: average = expected ×
tolerance is accepted as within tolerance. -/
theorem C4_tolerance_iff_witness : rBoundary.hashrate_within_tolerance = true :=
  (C4_tolerance_iff cfgD.analysis devD 1150 500 [47, 47, 47] [50, 50, 50] [10, 10, 10]
      [] [] rBoundary
      (by
        simp [aggregate, pySorted, pyAvg, avgTotal, pyTrimSlice, sampleVariance,
          expectedHashrate, cfgD, devD, rBoundary, List.insertionSort, List.orderedInsert]
        norm_num)
      rfl).mpr (by norm_num [rBoundary, devD, cfgD])

/-- C5 amended: can_resume holds iff the snapshot is present and the
state is PAUSED (core.py lines 95-98); the snapshot is cleared when a run
completes normally (line 732), but a run that raises mid-sweep reaches
the except handler (lines 753-759), which leaves the snapshot set while
the state becomes ERROR. -/
theorem C5_snapshot_lifecycle :
    (∀ (ss : Option SavedState) (st : BenchmarkState),
        canResume ss st = true ↔ ss.isSome = true ∧ st = BenchmarkState.PAUSED) ∧
    (∀ (cfg : BenchmarkConfig) (pre : Option SavedState) (dev : Option DeviceInfo)
        (iv ifq mto : Option Int) (q : Bool) (mv mf : Option Int)
        (script : List TrialOutcome) (res : RunResult),
        run cfg pre dev iv ifq mto q mv mf script = some res →
        res.state = BenchmarkState.COMPLETED → res.saved_state = none) ∧
    ((run cfgD none (some devD) none none none false none none [TrialOutcome.raiseExc]).map
        (fun res => (res.raised, res.state, res.saved_state.isSome)) =
      some (true, BenchmarkState.ERROR, true)) := by
  refine ⟨?_, ?_, by decide⟩
  · intro ss st
    cases ss <;> simp [canResume]
  · intro cfg pre dev iv ifq mto q mv mf script res h hst
    simp only [run] at h
    split at h
    · simp only [Option.some.injEq] at h
      subst h
      simp at hst
    · split at h
      · simp only [Option.some.injEq] at h
        subst h
        simp at hst
      · split at h
        · exact Option.noConfusion h
        · simp only [Option.some.injEq] at h
          subst h
          simp at hst
        · split at h <;>
            (simp only [Option.some.injEq] at h; subst h; rfl)

/-- Witness for C5 amended: a present snapshot in PAUSED state can
resume. -/
theorem C5_snapshot_lifecycle_witness :
    canResume (some savedD) BenchmarkState.PAUSED = true :=
  (C5_snapshot_lifecycle.1 (some savedD) BenchmarkState.PAUSED).mpr ⟨rfl, rfl⟩

/-- Every returning path of run carries the configuration exactly as
rewritten by the temperature override at the top (core.py line 542-543);
no later statement writes to the configuration. -/
theorem run_config_eq (cfg : BenchmarkConfig) (pre : Option SavedState)
    (dev : Option DeviceInfo) (iv ifq mto : Option Int) (q : Bool)
    (mv mf : Option Int) (script : List TrialOutcome) (res : RunResult)
    (h : run cfg pre dev iv ifq mto q mv mf script = some res) :
    res.config = overrideConfig cfg mto := by
  simp only [run] at h
  split at h
  · simp only [Option.some.injEq] at h
    subst h
    rfl
  · split at h
    · simp only [Option.some.injEq] at h
      subst h
      rfl
    · split at h
      · exact Option.noConfusion h
      · simp only [Option.some.injEq] at h
        subst h
        rfl
      · split at h <;>
          (simp only [Option.some.injEq] at h; subst h; rfl)

/-- C10: a non-zero max_temp_override rewrites config.safety.max_temp in
place before the sweep; every other configuration field is untouched
(the record update fixes them all to their old values), and because
nothing restores the old ceiling, a subsequent run on the resulting
configuration (without an override) still sees it. -/
theorem C10_override_mutates_and_persists (cfg : BenchmarkConfig)
    (pre : Option SavedState) (dev : Option DeviceInfo) (iv ifq : Option Int)
    (t : Int) (q : Bool) (mv mf : Option Int) (script : List TrialOutcome)
    (res : RunResult) (ht : t ≠ 0)
    (h : run cfg pre dev iv ifq (some t) q mv mf script = some res) :
    res.config = { cfg with safety.max_temp := t } ∧
    res.config.safety.max_temp = t ∧
    (∀ (pre2 : Option SavedState) (dev2 : Option DeviceInfo) (iv2 if2 : Option Int)
        (q2 : Bool) (mv2 mf2 : Option Int) (script2 : List TrialOutcome)
        (res2 : RunResult),
        run res.config pre2 dev2 iv2 if2 none q2 mv2 mf2 script2 = some res2 →
        res2.config.safety.max_temp = t) := by
  have hc : res.config = { cfg with safety.max_temp := t } := by
    rw [run_config_eq cfg pre dev iv ifq (some t) q mv mf script res h]
    simp [overrideConfig, ht]
  refine ⟨hc, by rw [hc], ?_⟩
  intro pre2 dev2 iv2 if2 q2 mv2 mf2 script2 res2 h2
  rw [run_config_eq res.config pre2 dev2 iv2 if2 none q2 mv2 mf2 script2 res2 h2]
  simp [overrideConfig, hc]

/-- The outcome of a run whose device fetch fails, with a 70°C override:
the override is applied even on that early-exit path. -/
def resOverride : RunResult :=
  { config := { cfgD with safety.max_temp := 70 }, results := []
    saved_state := none, state := .ERROR, trace := []
    applied_settings := none, refine_range := none, raised := false }

/-- Witness for C10 at the concrete override 70°C. -/
theorem C10_override_mutates_and_persists_witness :
    resOverride.config = { cfgD with safety.max_temp := 70 } :=
  (C10_override_mutates_and_persists cfgD none none none none 70 false none none []
      resOverride (by decide) (by rfl)).1

/-- C2: one theorem, three parts.  (1) A CHIP_TEMP_EXCEEDED iteration at
the initial frequency turns the whole sweep result into an immediate
abort: whatever voltages remain in the ladder and whatever the script
still contains, the sweep ends right there (trace gains exactly the one
apply of this trial).  (2) A CHIP_TEMP_EXCEEDED iteration at any
frequency other than the initial one only breaks the inner loop of the
current voltage.  (3) A broken inner loop makes the sweep proceed with
the next voltage level (core.py lines 668-703). -/
theorem C2_chip_temp_abort
    (maxF fInc initF voltage freq : Int) (r : IterOutcome)
    (vs : List Int) (rest : List TrialOutcome) (st : SweepSt)
    (hr : r.error_reason = some ErrorReason.CHIP_TEMP_EXCEEDED) :
    (initF ≤ maxF →
      outerLoop maxF fInc initF (voltage :: vs) (TrialOutcome.iter r :: rest) st =
        ({ st with
            trace := st.trace ++ [Action.applySettings voltage initF true]
            iteration_num := st.iteration_num + 1
            saved := { st.saved with
              current_voltage := voltage, current_frequency := initF
              iteration_num := st.iteration_num } },
          rest, OuterExit.aborted)) ∧
    (freq ≤ maxF → freq ≠ initF →
      innerLoop maxF fInc initF voltage (TrialOutcome.iter r :: rest) freq st =
        ({ st with
            trace := st.trace ++ [Action.applySettings voltage freq true]
            iteration_num := st.iteration_num + 1
            saved := { st.saved with
              current_voltage := voltage, current_frequency := freq
              iteration_num := st.iteration_num } },
          rest, InnerExit.broke)) ∧
    (∀ (v : Int) (vs2 : List Int) (script : List TrialOutcome) (st0 st1 : SweepSt)
        (rest1 : List TrialOutcome),
      innerLoop maxF fInc initF v script initF st0 = (st1, rest1, InnerExit.broke) →
      outerLoop maxF fInc initF (v :: vs2) script st0 =
        outerLoop maxF fInc initF vs2 rest1 st1) := by
  refine ⟨?_, ?_, ?_⟩
  · intro hle
    simp [outerLoop, innerLoop, hle, IterOutcome.toResult, hr]
  · intro hle hne
    simp [innerLoop, hle, IterOutcome.toResult, hr, hne]
  · intro v vs2 script st0 st1 rest1 hI
    simp only [outerLoop, hI]

/-- Witness for C2: a three-level ladder overheats at the baseline
(1150mV, 500MHz): the sweep aborts with only that one trial attempted,
the remaining script untouched. -/
theorem C2_chip_temp_abort_witness :
    outerLoop 1200 20 500 [1150, 1165, 1180]
        [TrialOutcome.iter chipTempIter, TrialOutcome.iter goodIter] stD =
      ({ stD with
          trace := stD.trace ++ [Action.applySettings 1150 500 true]
          iteration_num := stD.iteration_num + 1
          saved := { stD.saved with
            current_voltage := 1150, current_frequency := 500
            iteration_num := stD.iteration_num } },
        [TrialOutcome.iter goodIter], OuterExit.aborted) :=
  (C2_chip_temp_abort 1200 20 500 1150 500 chipTempIter [1165, 1180]
      [TrialOutcome.iter goodIter] stD rfl).1 (by decide)

/-- Every value of Python range(a, c + 1, step) for a positive step and
a ≤ c: exactly the integers a + k·step that do not exceed c. -/
theorem pyRange_mem_iff (a c step x : Int) (hstep : 0 < step) (hac : a ≤ c) :
    x ∈ pyRange a (c + 1) step ↔ ∃ k : ℕ, x = a + k * step ∧ x ≤ c := by
  have hs' : ((step.toNat : ℤ)) = step := Int.toNat_of_nonneg hstep.le
  have hn' : (((c + 1 - a).toNat : ℤ)) = c + 1 - a := Int.toNat_of_nonneg (by omega)
  have hs0 : 0 < step.toNat := by omega
  have hn0 : 1 ≤ (c + 1 - a).toNat := by omega
  have hlen : ∀ k : ℕ, k < pyRangeLen a (c + 1) step ↔ (k : ℤ) * step ≤ c - a := by
    intro k
    unfold pyRangeLen
    rw [if_pos ⟨hstep, by omega⟩]
    rw [Nat.lt_iff_add_one_le, Nat.le_div_iff_mul_le hs0, add_one_mul]
    have h1 : (k * step.toNat + step.toNat ≤ (c + 1 - a).toNat + step.toNat - 1) ↔
        (k * step.toNat + 1 ≤ (c + 1 - a).toNat) := by
      generalize k * step.toNat = t
      omega
    rw [h1]
    have h2 : ((k * step.toNat + 1 : ℕ) : ℤ) ≤ (((c + 1 - a).toNat : ℕ) : ℤ) ↔
        (k : ℤ) * step ≤ c - a := by
      push_cast
      rw [hs', hn']
      generalize (k : ℤ) * step = u
      omega
    rw [← h2]
    exact ⟨fun h => by exact_mod_cast h, fun h => by exact_mod_cast h⟩
  unfold pyRange
  rw [List.mem_map]
  refine exists_congr fun k => ?_
  rw [List.mem_range, hlen k]
  constructor
  · rintro ⟨h1, h2⟩
    subst h2
    generalize hu : (k : ℤ) * step = u at *
    exact ⟨rfl, by omega⟩
  · rintro ⟨h1, h2⟩
    subst h1
    generalize hu : (k : ℤ) * step = u at *
    exact ⟨by omega, rfl⟩

/-- Python range(a, c + 1, step) is empty when a > c. -/
theorem pyRange_eq_nil (a c step : Int) (h : c < a) : pyRange a (c + 1) step = [] := by
  unfold pyRange pyRangeLen
  rw [if_neg]
  · rfl
  · rintro ⟨_, h2⟩
    omega

/-- Python range(a, c + 1, step) contains its start when a ≤ c. -/
theorem pyRange_ne_nil (a c step : Int) (hstep : 0 < step) (hac : a ≤ c) :
    pyRange a (c + 1) step ≠ [] := by
  have ha : a ∈ pyRange a (c + 1) step :=
    (pyRange_mem_iff a c step a hstep hac).mpr ⟨0, by simp, hac⟩
  exact List.ne_nil_of_mem ha

/-- C6: the effective step sizes are the configured increments times 4 in
quick mode and times 1 in full mode; the sweep ceiling is the minimum of
a positive caller-supplied limit and the global allowed maximum (the
allowed maximum alone when the caller supplies none); the voltage ladder
holds exactly the arithmetic progression initV + k·step up to and
including the ceiling, and collapses to [initV] when the start exceeds
the ceiling (core.py lines 582-601). -/
theorem C6_voltage_ladder (vIncCfg : Int) (quick : Bool) (callerV : Option Int)
    (allowedMax initV x : Int) (hinc : 0 < vIncCfg) :
    (effectiveIncrement vIncCfg true = vIncCfg * 4 ∧
      effectiveIncrement vIncCfg false = vIncCfg) ∧
    (∀ v : Int, 0 < v → sweepMax (some v) allowedMax = min v allowedMax) ∧
    (sweepMax none allowedMax = allowedMax) ∧
    (initV ≤ sweepMax callerV allowedMax →
      (x ∈ voltageLevels initV (sweepMax callerV allowedMax)
            (effectiveIncrement vIncCfg quick) ↔
        ∃ k : ℕ, x = initV + k * effectiveIncrement vIncCfg quick ∧
          x ≤ sweepMax callerV allowedMax)) ∧
    (sweepMax callerV allowedMax < initV →
      voltageLevels initV (sweepMax callerV allowedMax)
          (effectiveIncrement vIncCfg quick) = [initV]) := by
  have heff : 0 < effectiveIncrement vIncCfg quick := by
    cases quick <;> simp [effectiveIncrement] <;> omega
  refine ⟨⟨rfl, by simp [effectiveIncrement]⟩, ?_, ?_, ?_, ?_⟩
  · intro v hv
    simp [sweepMax, pyOrInt, hv.ne']
  · simp [sweepMax, pyOrInt]
  · intro hle
    rw [voltageLevels]
    simp only [if_neg (pyRange_ne_nil initV (sweepMax callerV allowedMax)
      (effectiveIncrement vIncCfg quick) heff hle)]
    exact pyRange_mem_iff initV (sweepMax callerV allowedMax)
      (effectiveIncrement vIncCfg quick) x heff hle
  · intro hlt
    rw [voltageLevels]
    simp only [if_pos (pyRange_eq_nil initV (sweepMax callerV allowedMax)
      (effectiveIncrement vIncCfg quick) hlt)]

/-- Witness for C6: with config increment 15mV in quick mode (effective
60mV), start 1150mV and caller ceiling 1260mV under the 1400mV global
maximum, 1210 = 1150 + 1·60 is in the ladder. -/
theorem C6_voltage_ladder_witness :
    (1210 : ℤ) ∈ voltageLevels 1150 (sweepMax (some 1260) 1400)
      (effectiveIncrement 15 true) :=
  ((C6_voltage_ladder 15 true (some 1260) 1400 1150 1210
      (by norm_num)).2.2.2.1 (by decide)).mpr ⟨1, by decide, by decide⟩

/-- C7: a refine range is produced exactly when the mode is quick and at
least one successful result was recorded, and it equals the best-by-
hashrate result bracketed by one effective step each way, clamped to the
global safety bounds (core.py lines 705-714). -/
theorem C7_refine_range (safety : SafetyConfig) (v_inc f_inc : Int) (quick : Bool)
    (results : List IterationResult) :
    (computeRefineRange safety v_inc f_inc quick results ≠ none ↔
      quick = true ∧ results ≠ []) ∧
    (∀ best : IterationResult,
      pyMaxBy (fun r => r.average_hashrate) results = some best → quick = true →
      computeRefineRange safety v_inc f_inc quick results =
        some { voltage_min := max (best.core_voltage - v_inc) safety.min_allowed_voltage
               voltage_max := min (best.core_voltage + v_inc) safety.max_allowed_voltage
               frequency_min := max (best.frequency - f_inc) safety.min_allowed_frequency
               frequency_max := min (best.frequency + f_inc) safety.max_allowed_frequency }) := by
  constructor
  · constructor
    · intro h
      unfold computeRefineRange at h
      split at h
      · next hcond => exact hcond
      · exact absurd rfl h
    · rintro ⟨hq, hne⟩
      cases results with
      | nil => exact absurd rfl hne
      | cons a as => simp [computeRefineRange, hq, pyMaxBy]
  · intro best hbest hq
    have hne : results ≠ [] := by
      intro h
      subst h
      simp [pyMaxBy] at hbest
    simp [computeRefineRange, hq, hne, hbest]

/-- The best result of the spec's refine-range example: (1200mV, 600MHz). -/
def rBest : IterationResult :=
  { core_voltage := 1200, frequency := 600
    average_hashrate := 80, hashrate_stddev_sq := 0
    average_temperature := 55, average_vr_temperature := none
    average_power := 12, average_fan_speed := none
    efficiency_jth := some 150
    hashrate_within_tolerance := true, error_reason := none }

/-- Witness for C7, the spec's worked example: best (1200, 600),
effective steps 60/80, bounds [1000,1400]×[400,1200] give
voltage [1140,1260] and frequency [520,680]. -/
theorem C7_refine_range_witness :
    computeRefineRange cfgD.safety 60 80 true [rBest] =
      some { voltage_min := 1140, voltage_max := 1260
             frequency_min := 520, frequency_max := 680 } := by
  rw [(C7_refine_range cfgD.safety 60 80 true [rBest]).2 rBest rfl rfl]
  decide

/-- C9: request_stop clears the pause flag and sets the resume event, a
parked checkpoint that wakes after request_stop returns False (so the
sweep loops break instead of starting another trial), and once stop is
requested the gate-entry condition of _check_pause is false, whatever the
pause flag says (core.py lines 100-105 and 490-510). -/
theorem C9_stop_overrides_pause (s : CtrlState) :
    (requestStop s).pause_requested = false ∧
    (requestStop s).resume_event = true ∧
    checkPauseReturn (requestStop s) = false ∧
    checkPauseParks (requestStop s) = false ∧
    (∀ s' : CtrlState, s'.stop_requested = true → checkPauseParks s' = false) := by
  refine ⟨rfl, rfl, rfl, rfl, ?_⟩
  intro s' h
  simp [checkPauseParks, h]

/-- Witness for C9: even with a pending pause request, a runner whose
stop flag is set does not park. -/
theorem C9_stop_overrides_pause_witness :
    checkPauseParks { stop_requested := true, pause_requested := true
                      resume_event := false, state := .RUNNING } = false :=
  (C9_stop_overrides_pause { stop_requested := true, pause_requested := true
                             resume_event := false, state := .RUNNING }).2.2.2.2
    { stop_requested := true, pause_requested := true
      resume_event := false, state := .RUNNING } rfl

end BitaxeBench
